import Mathlib

/-!
Shallow embedding of the fast-break backend API (FastAPI service in
`src/main.py`, BallDontLie service layer in `src/services/ball_api.py`,
training script in `src/model/train_model.py`).

Python dicts are modelled as association lists of `String × Val`; `dict.get`
with a default becomes `dgetD`; upstream HTTP calls become a `FetchResult`
parameter (`ok` = the JSON payload, `fail` = the call raised); numeric
probabilities and statistics are modelled over `ℚ`.
-/

namespace FastBreak

/-- A Python/JSON value as it appears in the dict payloads the service builds. -/
inductive Val where
  | s (x : String)
  | n (x : Int)
  | b (x : Bool)
  | null
  | obj (fields : List (String × Val))

/-- A Python dict, modelled as an association list (keys unique in practice). -/
abbrev PyDict := List (String × Val)

/-- Association-list lookup: the semantics of `d[k]` / `d.get(k)` on a dict
with unique keys. -/
def alookup {α : Type} : List (String × α) → String → Option α
  | [], _ => none
  | (k, v) :: rest, key => if k == key then some v else alookup rest key

/-- Python `d.get(key)`. -/
def dget (d : PyDict) (key : String) : Option Val := alookup d key

/-- Python `d.get(key, default)`. -/
def dgetD (d : PyDict) (key : String) (dflt : Val) : Val :=
  (dget d key).getD dflt

/-- Python `str()` on the scalar values the service interpolates into URLs. -/
def valToStr : Val → String
  | .s x => x
  | .n x => toString x
  | .b true => "True"
  | .b false => "False"
  | .null => "None"
  | .obj _ => ""

/-- An optional string field (`None` when absent). -/
def optStrVal : Option String → Val
  | some x => .s x
  | none => .null

/-- An optional int field (`None` when absent). -/
def optIntVal : Option Int → Val
  | some x => .n x
  | none => .null

/-- Tests whether `pat` is at the start of `s` (character lists). -/
def charsLead : List Char → List Char → Bool
  | [], _ => true
  | _ :: _, [] => false
  | a :: as, b :: bs => a == b && charsLead as bs

/-- Tests whether `pat` occurs somewhere in `s` (character lists). -/
def charsOccur (pat : List Char) : List Char → Bool
  | [] => pat.isEmpty
  | c :: cs => charsLead pat (c :: cs) || charsOccur pat cs

/-- Python `pat in s` on strings (substring containment). -/
def strOccurs (pat s : String) : Bool := charsOccur pat.toList s.toList

/-- ASCII uppercasing of one character. -/
def charUpper (c : Char) : Char :=
  if 97 ≤ c.toNat ∧ c.toNat ≤ 122 then Char.ofNat (c.toNat - 32) else c

/-- Python `s.upper()` (the strings the service uppercases are ASCII team
abbreviations). -/
def strUpper (s : String) : String := ⟨s.data.map charUpper⟩

/-! ### `src/services/ball_api.py`: constants and URL helpers -/

def NBA_CDN_BASE : String := "https://cdn.nba.com"

/-- Team ID mapping for NBA CDN logos (abbreviation -> NBA ID). -/
def TEAM_NBA_IDS : List (String × Int) :=
  [("ATL", 1610612737), ("BOS", 1610612738), ("BKN", 1610612751), ("CHA", 1610612766),
   ("CHI", 1610612741), ("CLE", 1610612739), ("DAL", 1610612742), ("DEN", 1610612743),
   ("DET", 1610612765), ("GSW", 1610612744), ("HOU", 1610612745), ("IND", 1610612754),
   ("LAC", 1610612746), ("LAL", 1610612747), ("MEM", 1610612763), ("MIA", 1610612748),
   ("MIL", 1610612749), ("MIN", 1610612750), ("NOP", 1610612740), ("NYK", 1610612752),
   ("OKC", 1610612760), ("ORL", 1610612753), ("PHI", 1610612755), ("PHX", 1610612756),
   ("POR", 1610612757), ("SAC", 1610612758), ("SAS", 1610612759), ("TOR", 1610612761),
   ("UTA", 1610612762), ("WAS", 1610612764)]

/-- Embeds `get_team_logo_url(team_abbr, size)`: NBA CDN logo URL, or `""` when the
(upper-cased) abbreviation is not in `TEAM_NBA_IDS`. -/
def get_team_logo_url (team_abbr : String) (size : String) : String :=
  match alookup TEAM_NBA_IDS (strUpper team_abbr) with
  | some nba_id =>
      NBA_CDN_BASE ++ "/logos/nba/" ++ toString nba_id ++ "/primary/" ++ size ++ "/logo.svg"
  | none => ""

/-- Embeds `get_player_headshot_url(player_id, size)`. -/
def get_player_headshot_url (player_id : Int) (size : String) : String :=
  NBA_CDN_BASE ++ "/headshots/nba/latest/" ++ size ++ "/" ++ toString player_id ++ ".png"

/-! ### Upstream BallDontLie entities

Fields the code accesses with `[...]` are total; fields accessed only through
`.get(...)` are `Option`, with the code's default applied at the use site. -/

structure UpTeam where
  id : Int
  abbreviation : String
  city : String
  name : String
  full_name : String
  conference : String
  division : String

structure UpGame where
  id : Int
  home_team : UpTeam
  visitor_team : UpTeam
  date : String
  status : Option String
  time : Option String
  period : Option Int
  postseason : Option Bool
  home_team_score : Option Int
  visitor_team_score : Option Int
  season : Option Int

structure UpPlayer where
  id : Int
  first_name : String
  last_name : String
  position : Option String
  height : Option String
  weight : Option String
  jersey_number : Option String
  college : Option String
  country : Option String
  draft_year : Option Int
  draft_round : Option Int
  draft_number : Option Int
  team : Option UpTeam

/-- The outcome of one outbound HTTP call: the decoded payload, or the call
raised an exception (network error, `raise_for_status`, missing API key …). -/
inductive FetchResult (α : Type) where
  | ok (v : α)
  | fail

/-! ### `fetch_upcoming_games` -/

/-- The dict built for one game inside `fetch_upcoming_games`'s loop. -/
def formatUpcoming (g : UpGame) : PyDict :=
  [("id", .n g.id),
   ("home_team", .s g.home_team.abbreviation),
   ("home_team_name", .s g.home_team.full_name),
   ("home_team_logo", .s (get_team_logo_url g.home_team.abbreviation "L")),
   ("home_team_logo_small", .s (get_team_logo_url g.home_team.abbreviation "S")),
   ("away_team", .s g.visitor_team.abbreviation),
   ("away_team_name", .s g.visitor_team.full_name),
   ("away_team_logo", .s (get_team_logo_url g.visitor_team.abbreviation "L")),
   ("away_team_logo_small", .s (get_team_logo_url g.visitor_team.abbreviation "S")),
   ("game_date", .s (g.date.take 10)),
   ("status", .s (g.status.getD "scheduled")),
   ("home_score", optIntVal g.home_team_score),
   ("away_score", optIntVal g.visitor_team_score),
   ("season", optIntVal g.season)]

/-- Embeds `fetch_upcoming_games`: formats the fetched games; its own `try/except`
catches any exception and returns `[]`. -/
def fetch_upcoming_games (raw : FetchResult (List UpGame)) : List PyDict :=
  match raw with
  | .ok games => games.map formatUpcoming
  | .fail => []

/-! ### `fetch_past_games` -/

/-- The `continue` condition in `fetch_past_games`: skip a game when its
status is not in `["Final", "final"]` and its home score is 0. -/
def past_skip (g : UpGame) : Bool :=
  !(["Final", "final"].contains (g.status.getD "")) && (g.home_team_score.getD 0 == 0)

/-- The dict built for one completed game inside `fetch_past_games`'s loop. -/
def formatPast (g : UpGame) : PyDict :=
  let home_score := g.home_team_score.getD 0
  let away_score := g.visitor_team_score.getD 0
  let winner := if home_score > away_score then g.home_team.abbreviation
                else g.visitor_team.abbreviation
  [("id", .n g.id),
   ("home_team", .s g.home_team.abbreviation),
   ("home_team_name", .s g.home_team.full_name),
   ("home_team_logo", .s (get_team_logo_url g.home_team.abbreviation "L")),
   ("home_team_logo_small", .s (get_team_logo_url g.home_team.abbreviation "S")),
   ("away_team", .s g.visitor_team.abbreviation),
   ("away_team_name", .s g.visitor_team.full_name),
   ("away_team_logo", .s (get_team_logo_url g.visitor_team.abbreviation "L")),
   ("away_team_logo_small", .s (get_team_logo_url g.visitor_team.abbreviation "S")),
   ("game_date", .s (g.date.take 10)),
   ("status", .s "Final"),
   ("home_score", .n home_score),
   ("away_score", .n away_score),
   ("winner", .s winner),
   ("winner_logo", .s (get_team_logo_url winner "L")),
   ("season", optIntVal g.season)]

/-- The sort key `x["game_date"]` used by `fetch_past_games`. -/
def dateKey (d : PyDict) : String := valToStr (dgetD d "game_date" (.s ""))

/-- The descending order `formatted_games.sort(key=..., reverse=True)` sorts by. -/
def gameDateGe (a b : PyDict) : Prop := dateKey b ≤ dateKey a

instance : DecidableRel gameDateGe := fun a b =>
  inferInstanceAs (Decidable (dateKey b ≤ dateKey a))

instance : IsTotal PyDict gameDateGe :=
  ⟨fun a b => le_total (dateKey b) (dateKey a)⟩

instance : IsTrans PyDict gameDateGe :=
  ⟨fun _ _ _ h1 h2 => le_trans h2 h1⟩

/-- Embeds `fetch_past_games`: keeps only completed games, formats them, and sorts by
`game_date` descending (a stable sort, like Python's); its `try/except`
catches any exception and returns `[]`. -/
def fetch_past_games (raw : FetchResult (List UpGame)) : List PyDict :=
  match raw with
  | .ok games => ((games.filter (fun g => !past_skip g)).map formatPast).insertionSort gameDateGe
  | .fail => []

/-! ### `fetch_game_by_id` -/

/-- The dict built by `fetch_game_by_id` on a successful fetch. -/
def formatGameById (g : UpGame) : PyDict :=
  [("id", .n g.id),
   ("home_team", .s g.home_team.abbreviation),
   ("home_team_name", .s g.home_team.full_name),
   ("home_team_id", .n g.home_team.id),
   ("home_team_city", .s g.home_team.city),
   ("home_team_conference", .s g.home_team.conference),
   ("home_team_division", .s g.home_team.division),
   ("home_team_logo", .s (get_team_logo_url g.home_team.abbreviation "L")),
   ("home_team_logo_small", .s (get_team_logo_url g.home_team.abbreviation "S")),
   ("away_team", .s g.visitor_team.abbreviation),
   ("away_team_name", .s g.visitor_team.full_name),
   ("away_team_id", .n g.visitor_team.id),
   ("away_team_city", .s g.visitor_team.city),
   ("away_team_conference", .s g.visitor_team.conference),
   ("away_team_division", .s g.visitor_team.division),
   ("away_team_logo", .s (get_team_logo_url g.visitor_team.abbreviation "L")),
   ("away_team_logo_small", .s (get_team_logo_url g.visitor_team.abbreviation "S")),
   ("game_date", if g.date == "" then Val.null else .s (g.date.take 10)),
   ("game_time", optStrVal g.time),
   ("status", .s (g.status.getD "scheduled")),
   ("period", .n (g.period.getD 0)),
   ("time_remaining", optStrVal g.time),
   ("postseason", .b (g.postseason.getD false)),
   ("season", optIntVal g.season),
   ("home_score", .n (g.home_team_score.getD 0)),
   ("away_score", .n (g.visitor_team_score.getD 0)),
   ("tickets", .obj
     [("available", .b false),
      ("note", .s "Ticket data requires Ticketmaster or SeatGeek API integration"),
      ("ticketmaster_search_url",
        .s ("https://www.ticketmaster.com/search?q=" ++ g.home_team.full_name)),
      ("seatgeek_search_url",
        .s ("https://seatgeek.com/search?search=" ++ g.home_team.abbreviation))])]

/-- Embeds `fetch_game_by_id`: its `try/except` catches any exception and returns
`None`; it also returns `None` when the response carries no game. -/
def fetch_game_by_id (raw : FetchResult (Option UpGame)) : Option PyDict :=
  match raw with
  | .ok (some g) => some (formatGameById g)
  | .ok none => none
  | .fail => none

/-! ### `fetch_teams`, `fetch_players`, `fetch_team_roster` -/

/-- The dict built for one team inside `fetch_teams`'s loop: the upstream
entity plus the two NBA-CDN logo URLs. -/
def formatTeam (t : UpTeam) : PyDict :=
  [("id", .n t.id),
   ("abbreviation", .s t.abbreviation),
   ("city", .s t.city),
   ("name", .s t.name),
   ("full_name", .s t.full_name),
   ("conference", .s t.conference),
   ("division", .s t.division),
   ("logo_url", .s (get_team_logo_url t.abbreviation "L")),
   ("logo_url_small", .s (get_team_logo_url t.abbreviation "S"))]

/-- Embeds `fetch_teams`: no `try/except` of its own, so a failed call propagates. -/
def fetch_teams (raw : FetchResult (List UpTeam)) : FetchResult (List PyDict) :=
  match raw with
  | .ok teams => .ok (teams.map formatTeam)
  | .fail => .fail

/-- The dict built for one player inside `fetch_players`'s loop: the upstream
entity plus the NBA-CDN headshot URL. -/
def formatPlayer (p : UpPlayer) : PyDict :=
  [("id", .n p.id),
   ("first_name", .s p.first_name),
   ("last_name", .s p.last_name),
   ("full_name", .s (p.first_name ++ " " ++ p.last_name)),
   ("position", .s (p.position.getD "")),
   ("height", .s (p.height.getD "")),
   ("weight", .s (p.weight.getD "")),
   ("jersey_number", .s (p.jersey_number.getD "")),
   ("college", .s (p.college.getD "")),
   ("country", .s (p.country.getD "")),
   ("draft_year", optIntVal p.draft_year),
   ("draft_round", optIntVal p.draft_round),
   ("draft_number", optIntVal p.draft_number),
   ("team", .s ((p.team.map (·.abbreviation)).getD "")),
   ("team_name", .s ((p.team.map (·.full_name)).getD "")),
   ("headshot_url", .s (get_player_headshot_url p.id "260x190"))]

/-- Embeds `fetch_players`: no `try/except` of its own, so a failed call propagates. -/
def fetch_players (raw : FetchResult (List UpPlayer)) : FetchResult (List PyDict) :=
  match raw with
  | .ok ps => .ok (ps.map formatPlayer)
  | .fail => .fail

/-- The dict built for one player inside `fetch_team_roster`'s loop. -/
def formatRosterPlayer (p : UpPlayer) : PyDict :=
  [("id", .n p.id),
   ("first_name", .s p.first_name),
   ("last_name", .s p.last_name),
   ("full_name", .s (p.first_name ++ " " ++ p.last_name)),
   ("position", .s (p.position.getD "")),
   ("jersey_number", .s (p.jersey_number.getD "")),
   ("height", .s (p.height.getD "")),
   ("weight", .s (p.weight.getD "")),
   ("headshot_url", .s (get_player_headshot_url p.id "260x190"))]

/-- Embeds `fetch_team_roster`: its `try/except` catches any exception and returns `[]`. -/
def fetch_team_roster (raw : FetchResult (List UpPlayer)) : List PyDict :=
  match raw with
  | .ok ps => ps.map formatRosterPlayer
  | .fail => []

/-- The dict built for one game inside `fetch_team_upcoming_games`'s loop. -/
def formatTeamUpcoming (g : UpGame) : PyDict :=
  [("id", .n g.id),
   ("home_team", .s g.home_team.abbreviation),
   ("home_team_name", .s g.home_team.full_name),
   ("home_team_logo", .s (get_team_logo_url g.home_team.abbreviation "L")),
   ("away_team", .s g.visitor_team.abbreviation),
   ("away_team_name", .s g.visitor_team.full_name),
   ("away_team_logo", .s (get_team_logo_url g.visitor_team.abbreviation "L")),
   ("game_date", .s (g.date.take 10)),
   ("status", .s (g.status.getD "scheduled"))]

/-- Embeds `fetch_team_upcoming_games`: its `try/except` catches any exception and
returns `[]`. -/
def fetch_team_upcoming_games (raw : FetchResult (List UpGame)) : List PyDict :=
  match raw with
  | .ok games => games.map formatTeamUpcoming
  | .fail => []

/-! ### `src/model/train_model.py`: the pickled bundle -/

/-- The keys of the dict `save_model` pickles into `nba_model.pkl`
(`src/model/train_model.py`, lines 111-122). -/
def save_model_keys : List String := ["model", "feature_columns", "label_column"]

/-- The bundle keys the prediction path in `src/main.py` reads:
`model_bundle["feature_cols"]` at startup (line 68) and in
`get_team_features` (line 209), and `model_bundle.get("team_stats_home")` /
`model_bundle.get("team_stats_away")` in `get_team_features` (lines 210-211). -/
def prediction_read_keys : List String :=
  ["feature_cols", "team_stats_home", "team_stats_away"]

/-! ### `src/main.py`: model bundle and feature assembly -/

/-- The loaded model bundle as the prediction path reads it: the feature-column
list under `feature_cols` and the per-team stat dicts under `team_stats_home`
and `team_stats_away` (stat values over `ℚ`). -/
structure ModelBundle where
  feature_cols : List String
  team_stats_home : List (String × List (String × ℚ))
  team_stats_away : List (String × List (String × ℚ))

/-- Embeds `get_team_features(home_team, away_team)`: builds the feature vector for a
matchup, or returns `None` when the bundle is missing or either team has no
stats entry.  Each column value comes from the home record when the column
name contains `_home`, from the away record when it contains `_away`
(and not `_home`), and from the home record otherwise; a stat missing from
the chosen record contributes 0. -/
def get_team_features (bundle : Option ModelBundle) (home_team away_team : String) :
    Option (List ℚ) :=
  match bundle with
  | none => none
  | some mb =>
    match alookup mb.team_stats_home home_team, alookup mb.team_stats_away away_team with
    | some home_data, some away_data =>
      some (mb.feature_cols.map fun col =>
        if strOccurs "_home" col then (alookup home_data col).getD 0
        else if strOccurs "_away" col then (alookup away_data col).getD 0
        else (alookup home_data col).getD 0)
    | _, _ => none

/-! ### `src/main.py`: GET /games -/

/-- The response dict of `GET /games`. -/
structure GamesResponse where
  source : String
  count : Nat
  games : List PyDict

/-- Embeds `get_games`: live API first (also storing a non-empty fetch in the cache),
then the in-memory cache, then the static fallback list.  Returns the
response and the new value of `cached_games`. -/
def get_games (raw : FetchResult (List UpGame)) (cached fallback : List PyDict) :
    GamesResponse × List PyDict :=
  let games := fetch_upcoming_games raw
  if games.isEmpty then
    if cached.isEmpty then (⟨"static", fallback.length, fallback⟩, cached)
    else (⟨"cache", cached.length, cached⟩, cached)
  else (⟨"balldontlie_api", games.length, games⟩, games)

/-! ### `src/main.py`: GET /games/{game_id} -/

/-- Embeds `next((g for g in gs if g["id"] == game_id), None)`. -/
def findGame (gs : List PyDict) (gid : Int) : Option PyDict :=
  gs.find? fun g =>
    match dget g "id" with
    | some (.n j) => j == gid
    | _ => false

/-- Embeds `_enrich_game_data`: fills missing fields of a cache/fallback game with
the endpoint's defaults. -/
def enrich_game_data (game : PyDict) : PyDict :=
  [("id", dgetD game "id" .null),
   ("home_team", dgetD game "home_team" (.s "")),
   ("home_team_name", dgetD game "home_team_name" (.s "")),
   ("home_team_id", dgetD game "home_team_id" (.n 0)),
   ("home_team_city", dgetD game "home_team_city" (.s "")),
   ("home_team_conference", dgetD game "home_team_conference" (.s "")),
   ("home_team_division", dgetD game "home_team_division" (.s "")),
   ("home_team_logo", dgetD game "home_team_logo" (.s "")),
   ("home_team_logo_small", dgetD game "home_team_logo_small" (.s "")),
   ("away_team", dgetD game "away_team" (.s "")),
   ("away_team_name", dgetD game "away_team_name" (.s "")),
   ("away_team_id", dgetD game "away_team_id" (.n 0)),
   ("away_team_city", dgetD game "away_team_city" (.s "")),
   ("away_team_conference", dgetD game "away_team_conference" (.s "")),
   ("away_team_division", dgetD game "away_team_division" (.s "")),
   ("away_team_logo", dgetD game "away_team_logo" (.s "")),
   ("away_team_logo_small", dgetD game "away_team_logo_small" (.s "")),
   ("game_date", dgetD game "game_date" (.s "")),
   ("game_time", dgetD game "game_time" .null),
   ("status", dgetD game "status" (.s "scheduled")),
   ("period", dgetD game "period" (.n 0)),
   ("time_remaining", dgetD game "time_remaining" .null),
   ("postseason", dgetD game "postseason" (.b false)),
   ("season", dgetD game "season" (.n 2025)),
   ("home_score", dgetD game "home_score" (.n 0)),
   ("away_score", dgetD game "away_score" (.n 0)),
   ("tickets", dgetD game "tickets" (.obj
     [("available", .b false),
      ("note", .s "Ticket data requires API integration"),
      ("ticketmaster_search_url",
        .s ("https://www.ticketmaster.com/search?q="
            ++ valToStr (dgetD game "home_team_name" (.s "")))),
      ("seatgeek_search_url",
        .s ("https://seatgeek.com/search?search="
            ++ valToStr (dgetD game "home_team" (.s ""))))]))]

/-- Embeds the `GET /games/id` handler: live API first (returned as-is), then the cache,
then the static fallback (both enriched); `none` models HTTP 404. -/
def get_game (raw : FetchResult (Option UpGame)) (cached fallback : List PyDict)
    (gid : Int) : Option PyDict :=
  match fetch_game_by_id raw with
  | some g => some g
  | none =>
    match findGame cached gid with
    | some g => some (enrich_game_data g)
    | none =>
      match findGame fallback gid with
      | some g => some (enrich_game_data g)
      | none => none

/-! ### `src/main.py`: winner and confidence rules of the prediction endpoints -/

/-- Lines 440-452 of `predict_game`: the branch on `home_win_prob > 0.5`
assigns `predicted_winner` and `confidence_val`, then the threshold chain
assigns the confidence label. -/
def predict_game_decision (home_team away_team : String)
    (home_win_prob away_win_prob : ℚ) : String × ℚ × String :=
  let predicted_winner := if home_win_prob > 1/2 then home_team else away_team
  let confidence_val := if home_win_prob > 1/2 then home_win_prob else away_win_prob
  let confidence :=
    if confidence_val ≥ 7/10 then "High"
    else if confidence_val ≥ 11/20 then "Medium"
    else "Low"
  (predicted_winner, confidence_val, confidence)

/-- Lines 516-528 of `predict_by_teams`: the same computation, written out
separately because it is a second copy in the source. -/
def predict_by_teams_decision (home away : String)
    (home_win_prob away_win_prob : ℚ) : String × ℚ × String :=
  let predicted_winner := if home_win_prob > 1/2 then home else away
  let confidence_val := if home_win_prob > 1/2 then home_win_prob else away_win_prob
  let confidence :=
    if confidence_val ≥ 7/10 then "High"
    else if confidence_val ≥ 11/20 then "Medium"
    else "Low"
  (predicted_winner, confidence_val, confidence)

/-! ### The process-global state and the endpoint step relation -/

/-- The process globals of `src/main.py`: the bundle loaded at startup, the
static fallback list loaded at startup, and the mutable cache. -/
structure AppState where
  model_bundle : Option ModelBundle
  fallback_games : List PyDict
  cached_games : List PyDict

/-- One endpoint invocation, carrying its request arguments and the outcomes
of the outbound calls it may make. -/
inductive Call where
  | root
  | games (api : FetchResult (List UpGame))
  | gamesToday (api : FetchResult (List UpGame))
  | gamesPast (api : FetchResult (List UpGame))
  | gameById (gid : Int) (api : FetchResult (Option UpGame))
  | gameDetails (gid : Int) (api : FetchResult (Option UpGame))
  | boxscore (gid : Int) (api : FetchResult PyDict)
  | tickets (gid : Int) (api : FetchResult (Option UpGame))
  | predict (gid : Int) (api : FetchResult (Option UpGame)) (probs : ℚ × ℚ)
  | predictTeams (home away : String) (probs : ℚ × ℚ)
  | results
  | teams (api : FetchResult (List UpTeam))
  | teamLogo (abbr size : String)
  | teamRoster (tid : Int) (api : FetchResult (List UpPlayer))
  | teamUpcoming (tid : Int) (api : FetchResult (List UpGame))
  | players (api : FetchResult (List UpPlayer))
  | player (pid : Int) (api : FetchResult PyDict)

/-- How an endpoint invocation ends: a normal response, a deliberate
`HTTPException`, or an exception escaping unhandled. -/
inductive EpOutcome where
  | ok
  | httpErr (code : Nat)
  | crash

/-- Runs a body that makes one raw outbound call: a failure of the call is an
exception propagating through the body. -/
def runFetch {α : Type} : FetchResult α → (α → EpOutcome) → EpOutcome
  | .ok v, k => k v
  | .fail, _ => .crash

/-- A `try/except` around a body: the handler replaces a propagating
exception. -/
def catchAll : EpOutcome → EpOutcome → EpOutcome
  | .crash, handler => handler
  | o, _ => o

/-- The string a game dict holds under `k` (`game["home_team"]` etc.; the
formatters always populate these fields with strings). -/
def gameStr (g : PyDict) (k : String) : String := valToStr (dgetD g k (.s ""))

/-- One endpoint invocation: its outcome and the new global state.  Every
endpoint other than `GET /games` and `POST /predict/{game_id}` leaves the
globals untouched (their bodies contain no assignment to them). -/
def endpointExec (st : AppState) : Call → EpOutcome × AppState
  | .root => (.ok, st)
  | .games api =>
      let p := get_games api st.cached_games st.fallback_games
      (.ok, { st with cached_games := p.2 })
  | .gamesToday api =>
      (catchAll (let _ := fetch_upcoming_games api; .ok) (.httpErr 500), st)
  | .gamesPast api =>
      (catchAll (let _ := fetch_past_games api; .ok) (.httpErr 500), st)
  | .gameById gid api =>
      (match get_game api st.cached_games st.fallback_games gid with
       | some _ => .ok
       | none => .httpErr 404, st)
  | .gameDetails _ api =>
      (catchAll (match fetch_game_by_id api with
                 | some _ => .ok
                 | none => .httpErr 404) (.httpErr 404), st)
  | .boxscore _ api =>
      (catchAll (runFetch api fun _ => .ok) (.httpErr 500), st)
  | .tickets _ api =>
      (match fetch_game_by_id api with
       | some _ => .ok
       | none => .httpErr 404, st)
  | .predict gid api _probs =>
      match st.model_bundle with
      | none => (.httpErr 500, st)
      | some mb =>
        let found :=
          match findGame st.cached_games gid with
          | some g => some g
          | none => findGame st.fallback_games gid
        match found with
        | some game =>
            (match get_team_features (some mb) (gameStr game "home_team")
                (gameStr game "away_team") with
             | none => .httpErr 400
             | some _ => .ok, st)
        | none =>
          match fetch_game_by_id api with
          | some game =>
              (match get_team_features (some mb) (gameStr game "home_team")
                  (gameStr game "away_team") with
               | none => .httpErr 400
               | some _ => .ok,
               { st with cached_games := st.cached_games ++ [game] })
          | none => (.httpErr 404, st)
  | .predictTeams home away _probs =>
      match st.model_bundle with
      | none => (.httpErr 500, st)
      | some mb =>
        (match get_team_features (some mb) (strUpper home) (strUpper away) with
         | none => .httpErr 400
         | some _ => .ok, st)
  | .results => (.ok, st)
  | .teams api =>
      let fallbackOut : EpOutcome :=
        match st.model_bundle with
        | none => .httpErr 500
        | some _ => .ok
      (catchAll
        (match fetch_teams api with
         | .ok ts => if ts.isEmpty then fallbackOut else .ok
         | .fail => .crash)
        fallbackOut, st)
  | .teamLogo abbr size =>
      (if get_team_logo_url (strUpper abbr) size == "" then .httpErr 404 else .ok, st)
  | .teamRoster _ api =>
      (catchAll (let _ := fetch_team_roster api; .ok) (.httpErr 500), st)
  | .teamUpcoming _ api =>
      (catchAll (let _ := fetch_team_upcoming_games api; .ok) (.httpErr 500), st)
  | .players api =>
      (catchAll (match fetch_players api with
                 | .ok _ => .ok
                 | .fail => .crash) (.httpErr 500), st)
  | .player _ api =>
      (catchAll (runFetch api fun _ => .ok) (.httpErr 500), st)

/-- Runs a sequence of endpoint invocations from a starting state. -/
def runTrace (st : AppState) : List Call → AppState
  | [] => st
  | c :: cs => runTrace (endpointExec st c).2 cs

/-! ## Claims -/

/-- C1: the claim reads the bundle pickled by `save_model` as supplying every
key the prediction path reads; in fact `save_model` writes only `model`,
`feature_columns` and `label_column`, so none of `feature_cols`,
`team_stats_home`, `team_stats_away` is supplied, and on a bundle with no
team-stats entries `get_team_features` returns `None` for every matchup. -/
theorem C1_save_model_key_mismatch :
    ("feature_cols" ∈ prediction_read_keys ∧
     "team_stats_home" ∈ prediction_read_keys ∧
     "team_stats_away" ∈ prediction_read_keys) ∧
    (save_model_keys.contains "feature_cols" = false ∧
     save_model_keys.contains "team_stats_home" = false ∧
     save_model_keys.contains "team_stats_away" = false) ∧
    (∀ cols home away, get_team_features (some ⟨cols, [], []⟩) home away = none) :=
  ⟨⟨by decide, by decide, by decide⟩,
   ⟨by decide, by decide, by decide⟩,
   fun _ _ _ => rfl⟩

/-- C2: `GET /games` consults the live API, the in-memory cache and the static
file in that order: a successful non-empty fetch is returned tagged
`balldontlie_api` and stored in the cache; a failed or empty fetch falls back
to the non-empty cache tagged `cache`, else to the static list tagged
`static` (cache unchanged in both fallback branches). -/
theorem C2_games_fallback_order (raw : FetchResult (List UpGame))
    (cached fallback : List PyDict) :
    (∀ gs, raw = .ok gs → gs ≠ [] →
      get_games raw cached fallback =
        (⟨"balldontlie_api", (gs.map formatUpcoming).length, gs.map formatUpcoming⟩,
         gs.map formatUpcoming)) ∧
    (fetch_upcoming_games raw = [] → cached ≠ [] →
      get_games raw cached fallback = (⟨"cache", cached.length, cached⟩, cached)) ∧
    (fetch_upcoming_games raw = [] → cached = [] →
      get_games raw cached fallback = (⟨"static", fallback.length, fallback⟩, cached)) ∧
    ((raw = .fail ∨ raw = .ok []) → fetch_upcoming_games raw = []) := by
  refine ⟨?_, ?_, ?_, ?_⟩
  · rintro gs rfl hne
    simp [get_games, fetch_upcoming_games, List.isEmpty_iff, hne]
  · intro h hne
    simp [get_games, h, List.isEmpty_iff, hne]
  · intro h hc
    simp [get_games, h, hc, List.isEmpty_iff]
  · rintro (rfl | rfl) <;> rfl

/-- Witness for C2 at concrete inputs: an empty fetch with a one-element
cache returns the cache tagged `cache`. -/
theorem C2_games_fallback_order_witness :
    get_games (.ok []) [[("id", Val.n 1)]] [] =
      (⟨"cache", 1, [[("id", Val.n 1)]]⟩, [[("id", Val.n 1)]]) :=
  (C2_games_fallback_order (.ok []) [[("id", Val.n 1)]] []).2.1 rfl (by simp)

/-- C3: `get_team_features` returns `None` when the bundle is missing or
either team has no stats entry; otherwise it returns one value per feature
column, taken from the home record for columns containing `_home`, from the
away record for columns containing `_away`, from the home record otherwise,
defaulting a missing stat to 0. -/
theorem C3_feature_vector (mb : ModelBundle) (home away : String) :
    (get_team_features none home away = none) ∧
    (alookup mb.team_stats_home home = none →
      get_team_features (some mb) home away = none) ∧
    (alookup mb.team_stats_away away = none →
      get_team_features (some mb) home away = none) ∧
    (∀ hd ad, alookup mb.team_stats_home home = some hd →
      alookup mb.team_stats_away away = some ad →
      ∃ l, get_team_features (some mb) home away = some l ∧
        l.length = mb.feature_cols.length ∧
        ∀ i (hi : i < mb.feature_cols.length) (hl : i < l.length),
          l.get ⟨i, hl⟩ =
            (if strOccurs "_home" (mb.feature_cols.get ⟨i, hi⟩) then
               (alookup hd (mb.feature_cols.get ⟨i, hi⟩)).getD 0
             else if strOccurs "_away" (mb.feature_cols.get ⟨i, hi⟩) then
               (alookup ad (mb.feature_cols.get ⟨i, hi⟩)).getD 0
             else
               (alookup hd (mb.feature_cols.get ⟨i, hi⟩)).getD 0)) := by
  refine ⟨rfl, ?_, ?_, ?_⟩
  · intro h
    cases h2 : alookup mb.team_stats_away away <;> simp [get_team_features, h, h2]
  · intro h
    cases h1 : alookup mb.team_stats_home home <;> simp [get_team_features, h1, h]
  · intro hd ad h1 h2
    refine ⟨mb.feature_cols.map (fun col =>
        if strOccurs "_home" col then (alookup hd col).getD 0
        else if strOccurs "_away" col then (alookup ad col).getD 0
        else (alookup hd col).getD 0), ?_, ?_, ?_⟩
    · simp [get_team_features, h1, h2]
    · simp
    · intro i hi hl
      simp [List.get_eq_getElem, List.getElem_map]

/-- A concrete bundle: two feature columns and one team on each side. -/
def bundleW : ModelBundle :=
  ⟨["pts_home", "pts_away", "pace"],
   [("LAL", [("pts_home", (110 : ℚ)), ("pace", (99 : ℚ))])],
   [("BOS", [("pts_away", (105 : ℚ))])]⟩

/-- Witness for C3 at concrete inputs: a team absent from the home-stats map
makes `get_team_features` return `None`. -/
theorem C3_feature_vector_witness :
    alookup bundleW.team_stats_home "MIA" = none ∧
    get_team_features (some bundleW) "MIA" "BOS" = none :=
  ⟨rfl, (C3_feature_vector bundleW "MIA" "BOS").2.1 rfl⟩

/-- Helper: every endpoint execution either leaves the state unchanged, or is
`GET /games` installing the freshly computed cache, or is
`POST /predict/{game_id}` appending the one game it fetched. -/
theorem exec_state_eq (st : AppState) (c : Call) :
    (endpointExec st c).2 = st ∨
    (∃ api, c = .games api ∧
      (endpointExec st c).2 =
        { st with cached_games := (get_games api st.cached_games st.fallback_games).2 }) ∨
    (∃ gid api probs g, c = .predict gid api probs ∧ fetch_game_by_id api = some g ∧
      (endpointExec st c).2 = { st with cached_games := st.cached_games ++ [g] }) := by
  cases c with
  | root => exact Or.inl rfl
  | games api => exact Or.inr (Or.inl ⟨api, rfl, rfl⟩)
  | gamesToday api => exact Or.inl rfl
  | gamesPast api => exact Or.inl rfl
  | gameById gid api => exact Or.inl rfl
  | gameDetails gid api => exact Or.inl rfl
  | boxscore gid api => exact Or.inl rfl
  | tickets gid api => exact Or.inl rfl
  | predict gid api probs =>
    cases hmb : st.model_bundle with
    | none => exact Or.inl (by simp [endpointExec, hmb])
    | some mb =>
      cases h1 : findGame st.cached_games gid with
      | some g => exact Or.inl (by simp [endpointExec, hmb, h1])
      | none =>
        cases h2 : findGame st.fallback_games gid with
        | some g => exact Or.inl (by simp [endpointExec, hmb, h1, h2])
        | none =>
          cases h3 : fetch_game_by_id api with
          | some g =>
            exact Or.inr (Or.inr ⟨gid, api, probs, g, rfl, h3,
              by simp [endpointExec, hmb, h1, h2, h3]⟩)
          | none => exact Or.inl (by simp [endpointExec, hmb, h1, h2, h3])
  | predictTeams home away probs =>
    cases hmb : st.model_bundle with
    | none => exact Or.inl (by simp [endpointExec, hmb])
    | some mb => exact Or.inl (by simp [endpointExec, hmb])
  | results => exact Or.inl rfl
  | teams api => exact Or.inl rfl
  | teamLogo ab sz => exact Or.inl rfl
  | teamRoster tid api => exact Or.inl rfl
  | teamUpcoming tid api => exact Or.inl rfl
  | players api => exact Or.inl rfl
  | player pid api => exact Or.inl rfl

/-- Helper: `GET /games` either keeps the cache or replaces it with the
non-empty list it fetched. -/
theorem get_games_cache (api : FetchResult (List UpGame)) (cached fallback : List PyDict) :
    (get_games api cached fallback).2 = cached ∨
    ((get_games api cached fallback).2 = fetch_upcoming_games api ∧
      fetch_upcoming_games api ≠ []) := by
  cases hE : (fetch_upcoming_games api).isEmpty with
  | true =>
    left
    cases hc : cached.isEmpty <;> simp [get_games, hE, hc]
  | false =>
    right
    constructor
    · simp [get_games, hE]
    · intro hnil
      rw [hnil] at hE
      simp at hE

/-- C4: every endpoint preserves the model bundle and the static fallback
list; the cache can change only through `GET /games` (which may install the
non-empty list it fetched) or `POST /predict/{game_id}` (which may append the
one game it fetched). -/
theorem C4_frame_condition (st : AppState) (c : Call) :
    (endpointExec st c).2.model_bundle = st.model_bundle ∧
    (endpointExec st c).2.fallback_games = st.fallback_games ∧
    ((endpointExec st c).2.cached_games ≠ st.cached_games →
      (∃ api, c = .games api) ∨ (∃ gid api probs, c = .predict gid api probs)) ∧
    (∀ api, c = .games api →
      (endpointExec st c).2.cached_games = st.cached_games ∨
      ((endpointExec st c).2.cached_games = fetch_upcoming_games api ∧
        fetch_upcoming_games api ≠ [])) ∧
    (∀ gid api probs, c = .predict gid api probs →
      (endpointExec st c).2.cached_games = st.cached_games ∨
      (∃ g, fetch_game_by_id api = some g ∧
        (endpointExec st c).2.cached_games = st.cached_games ++ [g])) := by
  rcases exec_state_eq st c with h | ⟨api, rfl, h⟩ | ⟨gid, api, probs, g, rfl, h3, h⟩
  · rw [h]
    exact ⟨rfl, rfl, fun hc => absurd rfl hc,
      fun _ _ => Or.inl rfl, fun _ _ _ _ => Or.inl rfl⟩
  · rw [h]
    refine ⟨rfl, rfl, fun _ => Or.inl ⟨api, rfl⟩, ?_, ?_⟩
    · rintro api2 heq
      injection heq with h2
      subst h2
      simpa using get_games_cache api st.cached_games st.fallback_games
    · rintro gid2 api2 probs2 heq
      exact Call.noConfusion heq
  · rw [h]
    refine ⟨rfl, rfl, fun _ => Or.inr ⟨gid, api, probs, rfl⟩, ?_, ?_⟩
    · rintro api2 heq
      exact Call.noConfusion heq
    · rintro gid2 api2 probs2 heq
      injection heq with e1 e2 e3
      subst e1; subst e2; subst e3
      exact Or.inr ⟨g, h3, by simp⟩

/-- Witness for C4 at concrete inputs: a failed `GET /games` fetch leaves the
(empty) cache unchanged. -/
theorem C4_frame_condition_witness :
    (endpointExec ⟨none, [], []⟩ (Call.games .fail)).2.cached_games = [] ∨
    ((endpointExec ⟨none, [], []⟩ (Call.games .fail)).2.cached_games =
        fetch_upcoming_games .fail ∧ fetch_upcoming_games .fail ≠ []) :=
  (C4_frame_condition ⟨none, [], []⟩ (Call.games .fail)).2.2.2.1 .fail rfl

/-- C5: no endpoint lets an upstream exception escape: every invocation ends
in a normal response or a deliberate HTTP error.  On a failed upstream call,
`GET /games`, `/games/today`, `/games/past` and `/teams/id/roster` return
fallback or default data (the fetch helpers returning empty lists), while
`/players`, `/players/id` and `/games/id/boxscore` return HTTP 500. -/
theorem C5_error_handling :
    (∀ st c, (endpointExec st c).1 ≠ EpOutcome.crash) ∧
    (∀ st, (endpointExec st (.games .fail)).1 = .ok) ∧
    (∀ st, (endpointExec st (.gamesToday .fail)).1 = .ok) ∧
    (∀ st, (endpointExec st (.gamesPast .fail)).1 = .ok) ∧
    (∀ st tid, (endpointExec st (.teamRoster tid .fail)).1 = .ok) ∧
    (∀ st, (endpointExec st (.players .fail)).1 = .httpErr 500) ∧
    (∀ st pid, (endpointExec st (.player pid .fail)).1 = .httpErr 500) ∧
    (∀ st gid, (endpointExec st (.boxscore gid .fail)).1 = .httpErr 500) ∧
    (fetch_upcoming_games .fail = [] ∧ fetch_past_games .fail = [] ∧
      fetch_team_roster .fail = []) := by
  refine ⟨?_, fun _ => rfl, fun _ => rfl, fun _ => rfl, fun _ _ => rfl,
    fun _ => rfl, fun _ _ => rfl, fun _ _ => rfl, rfl, rfl, rfl⟩
  intro st c
  cases c with
  | root => simp [endpointExec]
  | games api => simp [endpointExec]
  | gamesToday api => simp [endpointExec, catchAll]
  | gamesPast api => simp [endpointExec, catchAll]
  | gameById gid api =>
    cases h : get_game api st.cached_games st.fallback_games gid <;>
      simp [endpointExec, h]
  | gameDetails gid api =>
    cases h : fetch_game_by_id api <;> simp [endpointExec, catchAll, h]
  | boxscore gid api =>
    cases api <;> simp [endpointExec, catchAll, runFetch]
  | tickets gid api =>
    cases h : fetch_game_by_id api <;> simp [endpointExec, h]
  | predict gid api probs =>
    cases hmb : st.model_bundle with
    | none => simp [endpointExec, hmb]
    | some mb =>
      cases h1 : findGame st.cached_games gid with
      | some g =>
        cases h4 : get_team_features (some mb) (gameStr g "home_team")
            (gameStr g "away_team") <;>
          simp [endpointExec, hmb, h1, h4]
      | none =>
        cases h2 : findGame st.fallback_games gid with
        | some g =>
          cases h4 : get_team_features (some mb) (gameStr g "home_team")
              (gameStr g "away_team") <;>
            simp [endpointExec, hmb, h1, h2, h4]
        | none =>
          cases h3 : fetch_game_by_id api with
          | some g =>
            cases h4 : get_team_features (some mb) (gameStr g "home_team")
                (gameStr g "away_team") <;>
              simp [endpointExec, hmb, h1, h2, h3, h4]
          | none => simp [endpointExec, hmb, h1, h2, h3]
  | predictTeams home away probs =>
    cases hmb : st.model_bundle with
    | none => simp [endpointExec, hmb]
    | some mb =>
      cases h4 : get_team_features (some mb) (strUpper home) (strUpper away) <;>
        simp [endpointExec, hmb, h4]
  | results => simp [endpointExec]
  | teams api =>
    cases api with
    | fail => cases hmb : st.model_bundle <;>
        simp [endpointExec, catchAll, fetch_teams, hmb]
    | ok ts =>
      cases hmb : st.model_bundle <;>
        cases hE : (ts.map formatTeam).isEmpty <;>
          simp [endpointExec, catchAll, fetch_teams, hmb, hE]
  | teamLogo ab sz =>
    cases hL : get_team_logo_url (strUpper ab) sz == "" <;> simp [endpointExec, hL]
  | teamRoster tid api => simp [endpointExec, catchAll]
  | teamUpcoming tid api => simp [endpointExec, catchAll]
  | players api => cases api <;> simp [endpointExec, catchAll, fetch_players]
  | player pid api => cases api <;> simp [endpointExec, catchAll, runFetch]

/-- Witness for C5 at concrete inputs. -/
theorem C5_error_handling_witness :
    (endpointExec ⟨none, [], []⟩ Call.root).1 ≠ EpOutcome.crash :=
  C5_error_handling.1 ⟨none, [], []⟩ Call.root

/-- C5 counterexample: on a failed upstream call `GET /games/today`,
`GET /games/past` and `GET /teams/id/roster` return a normal response with
empty data (their inner fetch helpers catch first), not HTTP 500 — refuting
the claim's assignment of these endpoints to the catch-and-return-HTTP-error
pattern. -/
theorem C5_error_handling_counterexample :
    (endpointExec ⟨none, [], []⟩ (Call.gamesToday .fail)).1 = EpOutcome.ok ∧
    (endpointExec ⟨none, [], []⟩ (Call.gamesToday .fail)).1 ≠ EpOutcome.httpErr 500 ∧
    (endpointExec ⟨none, [], []⟩ (Call.gamesPast .fail)).1 = EpOutcome.ok ∧
    (endpointExec ⟨none, [], []⟩ (Call.gamesPast .fail)).1 ≠ EpOutcome.httpErr 500 ∧
    (endpointExec ⟨none, [], []⟩ (Call.teamRoster 1 .fail)).1 = EpOutcome.ok ∧
    (endpointExec ⟨none, [], []⟩ (Call.teamRoster 1 .fail)).1 ≠ EpOutcome.httpErr 500 :=
  ⟨rfl, fun h => EpOutcome.noConfusion h,
   rfl, fun h => EpOutcome.noConfusion h,
   rfl, fun h => EpOutcome.noConfusion h⟩

/-- C10: once the cache is non-empty, no sequence of endpoint invocations can
make it empty again. -/
theorem C10_cache_never_empties (st : AppState) (calls : List Call)
    (h : st.cached_games ≠ []) : (runTrace st calls).cached_games ≠ [] := by
  induction calls generalizing st with
  | nil => exact h
  | cons c cs ih =>
    apply ih
    rcases exec_state_eq st c with h1 | ⟨api, rfl, h1⟩ | ⟨gid, api, probs, g, rfl, h3, h1⟩
    · rw [h1]; exact h
    · rw [h1]
      rcases get_games_cache api st.cached_games st.fallback_games with h2 | ⟨h2, h4⟩
      · simpa [h2] using h
      · simpa [h2] using h4
    · rw [h1]; simp

/-- Witness for C10 at concrete inputs: a one-game cache stays non-empty over
a trace that fails a fetch and serves two further endpoints. -/
theorem C10_cache_never_empties_witness :
    (runTrace ⟨none, [], [[("id", Val.n 1)]]⟩
      [Call.games .fail, Call.results, Call.gamesToday .fail]).cached_games ≠ [] :=
  C10_cache_never_empties ⟨none, [], [[("id", Val.n 1)]]⟩ _ (by simp)

/-- C6: the teams fetch re-exposes each upstream team with the two NBA-CDN
logo URLs computed from its abbreviation through the 30-entry ID table (empty
string when the abbreviation is not in the table), and the players and roster
fetches re-expose each upstream player with the headshot URL computed from
its player ID. -/
theorem C6_cdn_enrichment :
    (TEAM_NBA_IDS.length = 30) ∧
    (∀ abbr size, alookup TEAM_NBA_IDS (strUpper abbr) = none →
      get_team_logo_url abbr size = "") ∧
    (∀ ts : List UpTeam, fetch_teams (.ok ts) = .ok (ts.map formatTeam)) ∧
    (∀ t : UpTeam,
      dget (formatTeam t) "logo_url" = some (.s (get_team_logo_url t.abbreviation "L")) ∧
      dget (formatTeam t) "logo_url_small" =
        some (.s (get_team_logo_url t.abbreviation "S")) ∧
      dget (formatTeam t) "abbreviation" = some (.s t.abbreviation) ∧
      dget (formatTeam t) "id" = some (.n t.id) ∧
      dget (formatTeam t) "full_name" = some (.s t.full_name)) ∧
    (∀ p : UpPlayer,
      dget (formatPlayer p) "headshot_url" =
        some (.s (get_player_headshot_url p.id "260x190")) ∧
      dget (formatPlayer p) "id" = some (.n p.id) ∧
      dget (formatRosterPlayer p) "headshot_url" =
        some (.s (get_player_headshot_url p.id "260x190")) ∧
      dget (formatRosterPlayer p) "id" = some (.n p.id)) ∧
    (∀ ps : List UpPlayer, fetch_players (.ok ps) = .ok (ps.map formatPlayer) ∧
      fetch_team_roster (.ok ps) = ps.map formatRosterPlayer) := by
  refine ⟨rfl, ?_, fun _ => rfl, ?_, ?_, fun _ => ⟨rfl, rfl⟩⟩
  · intro abbr size h
    simp [get_team_logo_url, h]
  · intro t
    exact ⟨rfl, rfl, rfl, rfl, rfl⟩
  · intro p
    exact ⟨rfl, rfl, rfl, rfl⟩

/-- Witness for C6 at concrete inputs: an abbreviation outside the table maps
to the empty logo URL. -/
theorem C6_cdn_enrichment_witness : get_team_logo_url "XYZ" "L" = "" :=
  C6_cdn_enrichment.2.1 "XYZ" "L" (by decide)

/-- C7: `GET /games/{game_id}` resolves a game through the live API first
(returned as-is), then the cache, then the static fallback (both matched on
`id` and enriched with defaults), and answers HTTP 404 exactly when all three
sources miss. -/
theorem C7_game_lookup_order (raw : FetchResult (Option UpGame))
    (cached fallback : List PyDict) (gid : Int) :
    (∀ g, fetch_game_by_id raw = some g →
      get_game raw cached fallback gid = some g) ∧
    (fetch_game_by_id raw = none → ∀ g, findGame cached gid = some g →
      get_game raw cached fallback gid = some (enrich_game_data g)) ∧
    (fetch_game_by_id raw = none → findGame cached gid = none →
      ∀ g, findGame fallback gid = some g →
      get_game raw cached fallback gid = some (enrich_game_data g)) ∧
    (get_game raw cached fallback gid = none ↔
      (fetch_game_by_id raw = none ∧ findGame cached gid = none ∧
        findGame fallback gid = none)) := by
  refine ⟨?_, ?_, ?_, ⟨?_, ?_⟩⟩
  · intro g h
    simp [get_game, h]
  · intro h g h2
    simp [get_game, h, h2]
  · intro h h2 g h3
    simp [get_game, h, h2, h3]
  · intro h
    cases h1 : fetch_game_by_id raw with
    | some g => simp [get_game, h1] at h
    | none =>
      cases h2 : findGame cached gid with
      | some g => simp [get_game, h1, h2] at h
      | none =>
        cases h3 : findGame fallback gid with
        | some g => simp [get_game, h1, h2, h3] at h
        | none => exact ⟨rfl, rfl, rfl⟩
  · rintro ⟨h1, h2, h3⟩
    simp [get_game, h1, h2, h3]

/-- A concrete fallback game. -/
def gameW : PyDict := [("id", Val.n 5), ("home_team", Val.s "LAL")]

/-- Witness for C7 at concrete inputs: with the API missing and an empty
cache, a static game with the requested id is returned enriched. -/
theorem C7_game_lookup_order_witness :
    get_game .fail [] [gameW] 5 = some (enrich_game_data gameW) :=
  (C7_game_lookup_order .fail [] [gameW] 5).2.2.1 rfl rfl gameW rfl

/-- The confidence-label chain both prediction endpoints apply to the
predicted winner's probability. -/
def confLabel (cv : ℚ) : String :=
  if cv ≥ 7/10 then "High" else if cv ≥ 11/20 then "Medium" else "Low"

theorem confLabel_high (cv : ℚ) : confLabel cv = "High" ↔ cv ≥ 7/10 := by
  unfold confLabel
  split_ifs with h1 h2
  · exact ⟨fun _ => h1, fun _ => rfl⟩
  · exact ⟨fun h => absurd h (by decide), fun h => absurd h h1⟩
  · exact ⟨fun h => absurd h (by decide), fun h => absurd h h1⟩

theorem confLabel_medium (cv : ℚ) :
    confLabel cv = "Medium" ↔ 11/20 ≤ cv ∧ cv < 7/10 := by
  unfold confLabel
  split_ifs with h1 h2
  · exact ⟨fun h => absurd h (by decide), fun h => absurd h1 (not_le.mpr h.2)⟩
  · exact ⟨fun _ => ⟨h2, not_le.mp h1⟩, fun _ => rfl⟩
  · exact ⟨fun h => absurd h (by decide), fun h => absurd h.1 h2⟩

theorem confLabel_low (cv : ℚ) : confLabel cv = "Low" ↔ cv < 11/20 := by
  unfold confLabel
  split_ifs with h1 h2
  · refine ⟨fun h => absurd h (by decide), fun hlt => ?_⟩
    exact absurd (le_trans (by norm_num) h1) (not_le.mpr hlt)
  · exact ⟨fun h => absurd h (by decide), fun hlt => absurd h2 (not_le.mpr hlt)⟩
  · exact ⟨fun _ => not_le.mp h2, fun _ => rfl⟩

/-- Helper: the decision block of `predict_game` in closed form. -/
theorem decision_eq (home away : String) (hp ap : ℚ) :
    predict_game_decision home away hp ap =
      (if hp > 1/2 then home else away,
       if hp > 1/2 then hp else ap,
       confLabel (if hp > 1/2 then hp else ap)) := rfl

/-- C8: both prediction endpoints apply the same rules: the home team is
predicted exactly when the home-win probability exceeds 0.5 (0.5 itself
predicts the away team); the confidence label is `High` iff the winner's
probability is at least 0.7, `Medium` iff it lies in [0.55, 0.7), and `Low`
iff it is below 0.55. -/
theorem C8_winner_confidence (home away : String) (hp ap : ℚ) (hne : home ≠ away) :
    (predict_game_decision home away hp ap = predict_by_teams_decision home away hp ap) ∧
    ((predict_game_decision home away hp ap).1 = home ↔ hp > 1/2) ∧
    (hp = 1/2 → (predict_game_decision home away hp ap).1 = away) ∧
    ((predict_game_decision home away hp ap).2.1 =
      if (predict_game_decision home away hp ap).1 = home then hp else ap) ∧
    ((predict_game_decision home away hp ap).2.2 = "High" ↔
      (predict_game_decision home away hp ap).2.1 ≥ 7/10) ∧
    ((predict_game_decision home away hp ap).2.2 = "Medium" ↔
      (11/20 ≤ (predict_game_decision home away hp ap).2.1 ∧
        (predict_game_decision home away hp ap).2.1 < 7/10)) ∧
    ((predict_game_decision home away hp ap).2.2 = "Low" ↔
      (predict_game_decision home away hp ap).2.1 < 11/20) := by
  have hsame : predict_game_decision home away hp ap =
      predict_by_teams_decision home away hp ap := rfl
  have e1 : (predict_game_decision home away hp ap).1 =
      if hp > 1/2 then home else away := by rw [decision_eq]
  have e2 : (predict_game_decision home away hp ap).2.1 =
      if hp > 1/2 then hp else ap := by rw [decision_eq]
  have e3 : (predict_game_decision home away hp ap).2.2 =
      confLabel (if hp > 1/2 then hp else ap) := by rw [decision_eq]
  rw [e1, e2, e3]
  refine ⟨hsame, ?_, ?_, ?_, confLabel_high _, confLabel_medium _, confLabel_low _⟩
  · constructor
    · intro h
      by_contra hw
      rw [if_neg hw] at h
      exact hne h.symm
    · intro hw
      rw [if_pos hw]
  · intro h
    subst h
    rw [if_neg (lt_irrefl ((1:ℚ)/2))]
  · by_cases hw : hp > 1/2
    · rw [if_pos hw, if_pos hw, if_pos rfl]
    · rw [if_neg hw, if_neg hw, if_neg (Ne.symm hne)]

/-- Witness for C8 at concrete inputs: home-win probability 0.6 predicts the
home team. -/
theorem C8_winner_confidence_witness :
    (predict_game_decision "LAL" "BOS" (3/5) (2/5)).1 = "LAL" :=
  ((C8_winner_confidence "LAL" "BOS" (3/5) (2/5) (by decide)).2.1).mpr (by norm_num)

/-- C9: every game returned by `fetch_past_games` has status `Final`, comes
from a kept upstream game formatted by the loop (whose `winner` is the home
abbreviation exactly when the home score exceeds the away score), the output
is sorted by `game_date` descending, it is a permutation of the formatted
kept games, and an upstream game with non-final status and home score 0 is
skipped. -/
theorem C9_past_games (games : List UpGame) :
    (∀ d, d ∈ fetch_past_games (.ok games) → dget d "status" = some (.s "Final")) ∧
    (∀ d, d ∈ fetch_past_games (.ok games) →
      ∃ g, g ∈ games ∧ past_skip g = false ∧ d = formatPast g) ∧
    (∀ g : UpGame, dget (formatPast g) "winner" =
      some (.s (if g.home_team_score.getD 0 > g.visitor_team_score.getD 0
                then g.home_team.abbreviation else g.visitor_team.abbreviation))) ∧
    List.Sorted gameDateGe (fetch_past_games (.ok games)) ∧
    (fetch_past_games (.ok games)).Perm
      ((games.filter (fun g => !past_skip g)).map formatPast) ∧
    (∀ g, g ∈ games → (["Final", "final"].contains (g.status.getD "")) = false →
      g.home_team_score.getD 0 = 0 → past_skip g = true) := by
  have hperm : (fetch_past_games (.ok games)).Perm
      ((games.filter (fun g => !past_skip g)).map formatPast) :=
    List.perm_insertionSort gameDateGe _
  have hmem : ∀ d, d ∈ fetch_past_games (.ok games) →
      ∃ g, g ∈ games ∧ past_skip g = false ∧ d = formatPast g := by
    intro d hd
    have hd2 := hperm.mem_iff.mp hd
    rcases List.mem_map.mp hd2 with ⟨g, hg, rfl⟩
    rcases List.mem_filter.mp hg with ⟨hgm, hskip⟩
    exact ⟨g, hgm, by simpa using hskip, rfl⟩
  refine ⟨?_, hmem, fun g => rfl, ?_, hperm, ?_⟩
  · intro d hd
    rcases hmem d hd with ⟨g, _, _, rfl⟩
    rfl
  · exact List.sorted_insertionSort gameDateGe _
  · intro g _ h1 h2
    unfold past_skip
    rw [h1, h2]
    decide

/-- A concrete upstream team pair and an unfinished scoreless game. -/
def teamW : UpTeam := ⟨14, "LAL", "Los Angeles", "Lakers", "Los Angeles Lakers", "West", "Pacific"⟩

def teamW2 : UpTeam := ⟨2, "BOS", "Boston", "Celtics", "Boston Celtics", "East", "Atlantic"⟩

def gameW9 : UpGame :=
  ⟨9, teamW, teamW2, "2025-01-02T00:00:00Z", some "1st Qtr", none, none, none,
   some 0, some 0, some 2024⟩

/-- Witness for C9 at concrete inputs: an in-progress scoreless game is
skipped. -/
theorem C9_past_games_witness : past_skip gameW9 = true :=
  (C9_past_games [gameW9]).2.2.2.2.2 gameW9 (by simp) rfl rfl

end FastBreak
